import Mathlib

/-!
Verification of the KML/KMZ parser (kml-parser / kmz-parser modules).

This file gives a shallow embedding of the parser's core functions and
proves or refutes the frozen claims about them.  Conventions used by the
embedding:

* JavaScript numbers produced by Number.parseFloat are modelled by `JsNum`:
  NaN, a signed Infinity, or an exact rational.  (Float rounding is not
  modelled; no claim depends on it.)
* DOM trees are modelled by `XmlNode`; `DOMParser.parseFromString` is an
  external browser API and is passed in as an oracle of type
  `String → ParseOutcome` (either a tree, or a parsererror document).
* CSS descendant selectors used via querySelector/querySelectorAll are
  implemented over the tree; ancestor matching is scoped to the queried
  subtree, which coincides with browser behaviour on every query the
  source performs.
* The regex literals of the salvage parser all have the shape
  `<Tag[^>]*>([\s\S]*?)</Tag>`; they are implemented by direct string
  scanning with the same match semantics.
* Trigonometric metric functions (Haversine distance, polygon area) are
  modelled over the real numbers.
* Exceptions are modelled with `Except String`; functions the source makes
  total by catch-all handlers are total Lean functions.
-/

/-- Whitespace class used by JavaScript `\s`, `trim`, and parseFloat
(restricted to the ASCII whitespace characters that can appear here). -/
def isWs (c : Char) : Bool :=
  c = ' ' ∨ c = '\t' ∨ c = '\n' ∨ c = '\r' ∨ c = '\x0b' ∨ c = '\x0c'

/-- A JavaScript number as produced by Number.parseFloat: NaN, a signed
Infinity, or a rational. -/
inductive JsNum where
  | nan : JsNum
  | inf (neg : Bool) : JsNum
  | num (q : ℚ) : JsNum
deriving DecidableEq, Repr

/-- The isNaN test of JavaScript: the infinite values are not NaN. -/
def JsNum.isNaN : JsNum → Bool
  | .nan => true
  | .inf _ => false
  | .num _ => false

/-- Numeric value of a digit character. -/
def digitVal (c : Char) : Nat := c.toNat - 48

/-- Value of a digit string read in base 10. -/
def natOfDigits (ds : List Char) : Nat := ds.foldl (fun n c => n * 10 + digitVal c) 0

/-- Model of JavaScript Number.parseFloat: skip leading whitespace, optional
sign, then either the case-sensitive literal "Infinity" (parsed to a
signed infinite value) or decimal digits with optional fraction and
exponent, reading the longest valid prefix; no valid prefix at all gives
NaN. -/
def parseFloat (s : String) : JsNum :=
  let cs := s.data.dropWhile isWs
  let signRes : Bool × List Char :=
    match cs with
    | '-' :: rest => (true, rest)
    | '+' :: rest => (false, rest)
    | _ => (false, cs)
  let neg := signRes.1
  let cs1 := signRes.2
  if "Infinity".data.isPrefixOf cs1 then .inf neg
  else
  let intDigits := cs1.takeWhile Char.isDigit
  let cs2 := cs1.dropWhile Char.isDigit
  let fracRes : List Char × List Char :=
    match cs2 with
    | '.' :: rest => (rest.takeWhile Char.isDigit, rest.dropWhile Char.isDigit)
    | _ => ([], cs2)
  let fracDigits := fracRes.1
  let cs3 := fracRes.2
  if intDigits = [] ∧ fracDigits = [] then .nan
  else
    let mantissa : ℚ :=
      (natOfDigits intDigits : ℚ) + (natOfDigits fracDigits : ℚ) / ((10 : ℚ) ^ fracDigits.length)
    let expVal : Int :=
      match cs3 with
      | e :: rest =>
        if e = 'e' ∨ e = 'E' then
          let esignRes : Int × List Char :=
            match rest with
            | '-' :: r => (-1, r)
            | '+' :: r => (1, r)
            | _ => (1, rest)
          let eds := esignRes.2.takeWhile Char.isDigit
          if eds = [] then 0 else esignRes.1 * (natOfDigits eds : Int)
        else 0
      | [] => 0
    let value : ℚ :=
      if 0 ≤ expVal then mantissa * (10 : ℚ) ^ expVal.toNat
      else mantissa / (10 : ℚ) ^ (-expVal).toNat
    .num (if neg then -value else value)

/-- First index at which `needle` occurs as a contiguous sublist of `hay`
(the semantics of String.prototype.indexOf / a literal in a regex). -/
def findSub : List Char → List Char → Option Nat
  | [], needle => if needle = [] then some 0 else none
  | c :: cs, needle =>
    if needle.isPrefixOf (c :: cs) then some 0 else (findSub cs needle).map (· + 1)

/-- String containment test (String.prototype.includes). -/
def containsSub (s pat : String) : Bool := (findSub s.data pat.data).isSome

/-- Replace the first occurrence of `pat` (list level). -/
def replaceFirstL (cs pat repl : List Char) : List Char :=
  match findSub cs pat with
  | none => cs
  | some i => cs.take i ++ repl ++ cs.drop (i + pat.length)

/-- String.prototype.replace with a plain-string pattern: replace the first
occurrence only.  (No `$`-patterns occur in any replacement the source uses.) -/
def replaceFirst (s pat repl : String) : String :=
  String.mk (replaceFirstL s.data pat.data repl.data)

/-- JavaScript String.prototype.trim (both ends). -/
def jsTrim (cs : List Char) : List Char :=
  ((cs.dropWhile isWs).reverse.dropWhile isWs).reverse

/-- Collapse every maximal whitespace run to a single space: the
`.replace(/\s+/g, " ")` step.  The flag records whether the previous
character was whitespace. -/
def collapseWsAux : Bool → List Char → List Char
  | _, [] => []
  | prevWs, c :: cs =>
    if isWs c then
      if prevWs then collapseWsAux true cs else ' ' :: collapseWsAux true cs
    else c :: collapseWsAux false cs

/-- Entry point of the whitespace collapse. -/
def collapseWs (cs : List Char) : List Char := collapseWsAux false cs

/-- Delete whitespace that immediately follows a comma: the
`.replace(/,\s+/g, ",")` step.  The flag records whether we are inside a
whitespace run that follows a comma. -/
def stripWsAfterCommaAux : Bool → List Char → List Char
  | _, [] => []
  | afterComma, c :: cs =>
    if afterComma ∧ isWs c then stripWsAfterCommaAux true cs
    else if c = ',' then ',' :: stripWsAfterCommaAux true cs
    else c :: stripWsAfterCommaAux false cs

/-- Entry point of the comma-whitespace strip. -/
def stripWsAfterComma (cs : List Char) : List Char := stripWsAfterCommaAux false cs

/-- Split on whitespace runs and drop empty pieces: the
`.split(/\s+/).filter(Boolean)` step.  `acc` holds the current token
reversed. -/
def splitWsAux : List Char → List Char → List (List Char)
  | acc, [] => if acc = [] then [] else [acc.reverse]
  | acc, c :: cs =>
    if isWs c then
      if acc = [] then splitWsAux [] cs else acc.reverse :: splitWsAux [] cs
    else splitWsAux (c :: acc) cs

/-- Entry point of the whitespace split. -/
def splitWs (cs : List Char) : List (List Char) := splitWsAux [] cs

/-- JavaScript String.prototype.split(",") : split at every comma, keeping
empty pieces.  `acc` holds the current piece reversed. -/
def splitCommaAux (acc : List Char) : List Char → List String
  | [] => [String.mk acc.reverse]
  | c :: cs =>
    if c = ',' then String.mk acc.reverse :: splitCommaAux [] cs
    else splitCommaAux (c :: acc) cs

/-- Entry point of the comma split. -/
def splitComma (s : String) : List String := splitCommaAux [] s.data

/-- String.prototype.startsWith. -/
def jsStartsWith (s pre : String) : Bool := pre.data.isPrefixOf s.data

/-- String.prototype.endsWith. -/
def jsEndsWith (s suf : String) : Bool := suf.data.reverse.isPrefixOf s.data.reverse

/-- String.prototype.toLowerCase (ASCII). -/
def jsToLower (s : String) : String := String.mk (s.data.map Char.toLower)

/-- String.prototype.substring(n) : drop the first n characters. -/
def jsDrop (s : String) (n : Nat) : String := String.mk (s.data.drop n)

/-- Group 1 of the first match of the regex `<Tag[^>]*>([\s\S]*?)</Tag>`:
locate the first `<Tag`, run to the first following `>`, then take
everything up to the first closing `</Tag>`. -/
def firstTagBlock (tag : String) (cs : List Char) : Option (List Char) :=
  match findSub cs ('<' :: tag.data) with
  | none => none
  | some i =>
    let rest := cs.drop (i + tag.data.length + 1)
    match rest.findIdx? (· = '>') with
    | none => none
    | some j =>
      let after := rest.drop (j + 1)
      match findSub after ('<' :: '/' :: tag.data ++ ['>']) with
      | none => none
      | some k => some (after.take k)

/-- All group-1 captures of the global regex `<Tag[^>]*>([\s\S]*?)</Tag>`,
continuing each search after the previous closing tag (lastIndex
behaviour of a /g regex).  `fuel` bounds the recursion and is supplied
larger than the input length, so it never runs out. -/
def allTagBlocksAux (tag : String) : Nat → List Char → List (List Char)
  | 0, _ => []
  | fuel + 1, cs =>
    match findSub cs ('<' :: tag.data) with
    | none => []
    | some i =>
      let rest := cs.drop (i + tag.data.length + 1)
      match rest.findIdx? (· = '>') with
      | none => []
      | some j =>
        let after := rest.drop (j + 1)
        let closePat := '<' :: '/' :: tag.data ++ ['>']
        match findSub after closePat with
        | none => []
        | some k =>
          after.take k :: allTagBlocksAux tag fuel (after.drop (k + closePat.length))

/-- Entry point of the global tag-block scan. -/
def allTagBlocks (tag : String) (cs : List Char) : List (List Char) :=
  allTagBlocksAux tag (cs.length + 1) cs

/-- JavaScript String.prototype.substring with both indices. -/
def jsSubstring (s : String) (a b : Nat) : String :=
  String.mk ((s.data.drop a).take (b - a))

/-! ## The DOM model -/

/-- A DOM node: an element with tag, attributes and children, or a text
node.  CDATA and decoded entities appear as text content, as the browser
parser delivers them. -/
inductive XmlNode where
  | elem (tag : String) (attrs : List (String × String)) (children : List XmlNode) : XmlNode
  | text (s : String) : XmlNode

mutual

/-- Node.textContent: concatenation of all descendant text. -/
def textContent : XmlNode → String
  | .text s => s
  | .elem _ _ c => textContentList c

/-- textContent over a child list. -/
def textContentList : List XmlNode → String
  | [] => ""
  | n :: ns => textContent n ++ textContentList ns

end

/-- Element.getAttribute. -/
def getAttribute (n : XmlNode) (name : String) : Option String :=
  match n with
  | .text _ => none
  | .elem _ attrs _ => (attrs.find? (fun p => p.1 = name)).map (fun p => p.2)

mutual

/-- Pre-order walk of one node, collecting every element of its subtree
(itself included) with the top-down list of its ancestor tags. -/
def walkNode (path : List String) : XmlNode → List (List String × XmlNode)
  | .text _ => []
  | .elem t a c => (path, .elem t a c) :: walkChildren (path ++ [t]) c

/-- Pre-order walk collecting every element of the forest together with the
top-down list of its ancestor tags (starting from `path`). -/
def walkChildren (path : List String) : List XmlNode → List (List String × XmlNode)
  | [] => []
  | n :: ns => walkNode path n ++ walkChildren path ns

end

/-- Does the tag chain `pre` (all selectors but the last) embed, in order,
into the ancestor path? -/
def chainMatches : List String → List String → Bool
  | [], _ => true
  | _ :: _, [] => false
  | c :: cs, a :: as => if a = c then chainMatches cs as else chainMatches (c :: cs) as

/-- Does an element with ancestor path `path` match the descendant-selector
chain `chain`? -/
def selMatch (chain : List String) (path : List String) (n : XmlNode) : Bool :=
  match n with
  | .text _ => false
  | .elem t _ _ =>
    match chain.getLast? with
    | none => false
    | some lastSel => t = lastSel ∧ chainMatches chain.dropLast path

/-- Document.querySelectorAll for a descendant-selector chain: the document
root itself is a candidate match. -/
def selectFromDoc (chain : List String) (doc : XmlNode) : List XmlNode :=
  (match doc with
   | .text _ => []
   | .elem t a c => (([], XmlNode.elem t a c) :: walkChildren [t] c)).filterMap
    (fun (p : List String × XmlNode) => if selMatch chain p.1 p.2 then some p.2 else none)

/-- Element.querySelectorAll for a descendant-selector chain: only proper
descendants are candidates; the element's own tag heads the ancestor path. -/
def selectFromElem (chain : List String) (e : XmlNode) : List XmlNode :=
  (match e with
   | .text _ => []
   | .elem t _ c => walkChildren [t] c).filterMap
    (fun (p : List String × XmlNode) => if selMatch chain p.1 p.2 then some p.2 else none)

/-- Element.querySelector (first match) on an element scope. -/
def selHead (chain : List String) (e : XmlNode) : Option XmlNode :=
  (selectFromElem chain e).head?

/-- The `x?.textContent || undefined` idiom: an absent node, or empty text,
gives undefined. -/
def truthyText (o : Option XmlNode) : Option String :=
  match o with
  | none => none
  | some n => if textContent n = "" then none else some (textContent n)

/-! ## Data model (lib/types.ts) -/

/-- A coordinate triple (lng, lat, alt) as stored in a number[] of length 3. -/
def Triple : Type := JsNum × JsNum × JsNum

instance : DecidableEq Triple := by
  unfold Triple
  infer_instance

/-- KmlStyle (lib/types.ts): only the fields the parser ever writes. -/
structure KmlStyle where
  color : Option String := none
  width : Option JsNum := none
  fillColor : Option String := none
  fillOpacity : Option ℚ := none
  strokeOpacity : Option ℚ := none
  iconUrl : Option String := none
  iconScale : Option JsNum := none
deriving DecidableEq, Repr

/-- Derived metadata of an element: length (LineString) or area (Polygon),
in km and square km, over the reals. -/
structure Metadata where
  length : Option ℝ := none
  area : Option ℝ := none

/-- The coordinates field, whose shape depends on the geometry kind
(number[] for Point, number[][] for LineString, number[][][] for Polygon). -/
inductive Coords where
  | point (t : Triple) : Coords
  | line (ts : List Triple) : Coords
  | poly (rings : List (List Triple)) : Coords
deriving DecidableEq

/-- KmlElement (lib/types.ts).  The uuid identifier is opaque,
process-unique and never inspected by the parser, so it is omitted from the
model. -/
structure KmlElement where
  type : String
  name : Option String := none
  description : Option String := none
  coordinates : Coords
  style : Option KmlStyle := none
  extendedData : Option (List (String × String)) := none
  metadata : Option Metadata := none

/-- KmlData (lib/types.ts). -/
structure KmlData where
  name : Option String := none
  description : Option String := none
  elements : List KmlElement

/-- The style table: a JavaScript Map in insertion order. -/
def StyleTable : Type := List (String × KmlStyle)

/-- Map.prototype.get. -/
def mapGet (m : StyleTable) (k : String) : Option KmlStyle :=
  (m.find? (fun p => p.1 = k)).map (fun p => p.2)

/-- Map.prototype.set: replace in place, or append. -/
def mapSet (m : StyleTable) (k : String) (v : KmlStyle) : StyleTable :=
  match m with
  | [] => [(k, v)]
  | (k', v') :: rest => if k' = k then (k, v) :: rest else (k', v') :: mapSet rest k v

/-- An extendedData record, assigned in insertion order. -/
def RecordST : Type := List (String × String)

/-- Object property assignment: replace in place, or append. -/
def recSet (m : RecordST) (k v : String) : RecordST :=
  match m with
  | [] => [(k, v)]
  | (k', v') :: rest => if k' = k then (k, v) :: rest else (k', v') :: recSet rest k v

/-! ## Color codec (kmlColorToHex) -/

/-- kmlColorToHex: converts a packed aabbggrr KML color to #rrggbb.  The
argument is an Option to cover an undefined input; `!kmlColor` also
rejects the empty string. -/
def kmlColorToHex (kmlColor : Option String) : String :=
  match kmlColor with
  | none => "#3700ff"
  | some s =>
    if s = "" ∨ s.length ≠ 8 then "#3700ff"
    else
      let blue := jsSubstring s 2 4
      let green := jsSubstring s 4 6
      let red := jsSubstring s 6 8
      "#" ++ red ++ green ++ blue

/-! ## Coordinate tokenizer (parseCoordinates / parseCoordinatesText) -/

/-- Number.parseFloat applied to parts[i]; a missing index is undefined,
which parseFloat turns into NaN. -/
def getPart (parts : List String) (i : Nat) : JsNum :=
  match parts.get? i with
  | some p => parseFloat p
  | none => .nan

/-- The per-token mapper of parseCoordinates: split the token on commas,
parse lng, lat and optional alt (default 0), and degrade the whole token
to (0,0,0) when lng or lat is NaN. -/
def parseCoordToken (coordStr : String) : Triple :=
  let parts := splitComma coordStr
  let lng := getPart parts 0
  let lat := getPart parts 1
  let alt := if parts.length > 2 then getPart parts 2 else .num 0
  if lng.isNaN ∨ lat.isNaN then (.num 0, .num 0, .num 0) else (lng, lat, alt)

/-- The token list of a coordinates string: trim, collapse whitespace,
strip whitespace after commas, split on whitespace, drop empties. -/
def coordTokens (s : String) : List String :=
  (splitWs (stripWsAfterComma (collapseWs (jsTrim s.data)))).map String.mk

/-- parseCoordinates: `!coordinatesString` (null, undefined or "") gives [],
otherwise each whitespace-separated token produces exactly one triple. -/
def parseCoordinates (coordinatesString : Option String) : List Triple :=
  match coordinatesString with
  | none => []
  | some s => if s = "" then [] else (coordTokens s).map parseCoordToken

/-- parseCoordinatesText: the salvage-parser twin of parseCoordinates; the
geometry type argument is accepted but unused, as in the source. -/
def parseCoordinatesText (coordsText : String) (_ty : String) : List Triple :=
  (coordTokens coordsText).map parseCoordToken

/-! ## Geodesic metrics (calculateDistance / calculatePolygonArea) -/

/-- Math.atan2, modelled as the argument of the complex number x + y i. -/
noncomputable def atan2 (y x : ℝ) : ℝ := Complex.arg ⟨x, y⟩

/-- Numeric value of a JsNum as a real; NaN and the infinite values are
mapped to 0.  (Their propagation inside the metric formulas is not
modelled; no claim concerns metric values of degenerate coordinates.) -/
noncomputable def JsNum.toR : JsNum → ℝ
  | .nan => 0
  | .inf _ => 0
  | .num q => (q : ℝ)

/-- calculateDistance: Haversine great-circle distance in km, Earth radius
6371 km. -/
noncomputable def calculateDistance (lat1 lon1 lat2 lon2 : ℝ) : ℝ :=
  6371 *
    (2 * atan2
      (Real.sqrt
        (Real.sin ((lat2 - lat1) * Real.pi / 180 / 2) *
            Real.sin ((lat2 - lat1) * Real.pi / 180 / 2) +
          Real.cos (lat1 * Real.pi / 180) * Real.cos (lat2 * Real.pi / 180) *
              (Real.sin ((lon2 - lon1) * Real.pi / 180 / 2) *
                Real.sin ((lon2 - lon1) * Real.pi / 180 / 2))))
      (Real.sqrt
        (1 -
          (Real.sin ((lat2 - lat1) * Real.pi / 180 / 2) *
              Real.sin ((lat2 - lat1) * Real.pi / 180 / 2) +
            Real.cos (lat1 * Real.pi / 180) * Real.cos (lat2 * Real.pi / 180) *
                (Real.sin ((lon2 - lon1) * Real.pi / 180 / 2) *
                  Real.sin ((lon2 - lon1) * Real.pi / 180 / 2))))))

/-- The loop of calculatePolygonArea: accumulate
(lon2 - lon1) * (2 + sin lat1 + sin lat2) over consecutive vertex pairs,
wrapping from the last vertex to the first. -/
noncomputable def polygonAreaSum (coordinates : List Triple) : ℝ :=
  (List.range coordinates.length).foldl
    (fun acc i =>
      let j := (i + 1) % coordinates.length
      let ci := coordinates.getD i (.num 0, .num 0, .num 0)
      let cj := coordinates.getD j (.num 0, .num 0, .num 0)
      let lat1 := ci.2.1.toR * Real.pi / 180
      let lon1 := ci.1.toR * Real.pi / 180
      let lat2 := cj.2.1.toR * Real.pi / 180
      let lon2 := cj.1.toR * Real.pi / 180
      acc + (lon2 - lon1) * (2 + Real.sin lat1 + Real.sin lat2)) 0

/-- calculatePolygonArea: spherical line-integral approximation in square
km; rings with fewer than 3 points give 0. -/
noncomputable def calculatePolygonArea (coordinates : List Triple) : ℝ :=
  if coordinates.length < 3 then 0
  else |polygonAreaSum coordinates * 6371 * 6371 / 2|

/-- The LineString length loop: sum of pairwise Haversine distances, with
arguments (lat1, lon1, lat2, lon2) read from fields [1] and [0]. -/
noncomputable def lineLength (coordinates : List Triple) : ℝ :=
  (coordinates.zip coordinates.tail).foldl
    (fun acc pq => acc + calculateDistance pq.1.2.1.toR pq.1.1.toR pq.2.2.1.toR pq.2.1.toR) 0

/-! ## Style resolver (parseStyles) -/

/-- The body of the Style loop of parseStyles: skip elements without a
truthy id, read LineStyle color/width, PolyStyle color/fill/outline and
IconStyle scale/href, then store the style under the id. -/
def processStyle (styles : StyleTable) (styleEl : XmlNode) : StyleTable :=
  match getAttribute styleEl "id" with
  | none => styles
  | some id =>
    if id = "" then styles
    else
      let s0 : KmlStyle := {}
      let s2 :=
        match selHead ["LineStyle"] styleEl with
        | none => s0
        | some lineStyle =>
          let s1 :=
            match truthyText (selHead ["color"] lineStyle) with
            | some color => { s0 with color := some (kmlColorToHex (some color)) }
            | none => s0
          match truthyText (selHead ["width"] lineStyle) with
          | some width => { s1 with width := some (parseFloat width) }
          | none => s1
      let s5 :=
        match selHead ["PolyStyle"] styleEl with
        | none => s2
        | some polyStyle =>
          let s3 :=
            match truthyText (selHead ["color"] polyStyle) with
            | some color => { s2 with fillColor := some (kmlColorToHex (some color)) }
            | none => s2
          let s4 :=
            match truthyText (selHead ["fill"] polyStyle) with
            | some fill => { s3 with fillOpacity := some (if fill = "1" then 1 / 2 else 0) }
            | none => s3
          match truthyText (selHead ["outline"] polyStyle) with
          | some outline => { s4 with strokeOpacity := some (if outline = "1" then 1 else 0) }
          | none => s4
      let s7 :=
        match selHead ["IconStyle"] styleEl with
        | none => s5
        | some iconStyle =>
          let s6 :=
            match truthyText (selHead ["scale"] iconStyle) with
            | some scale => { s5 with iconScale := some (parseFloat scale) }
            | none => s5
          match truthyText (selHead ["Icon", "href"] iconStyle) with
          | some icon => { s6 with iconUrl := some icon }
          | none => s6
      mapSet styles id s7

/-- The styleUrl text of the Pair child whose key is "normal". -/
def normalStyleUrl (styleMap : XmlNode) : Option String :=
  ((selectFromElem ["Pair"] styleMap).find? fun pair =>
      match (selectFromElem ["key"] pair).head? with
      | some key => textContent key = "normal"
      | none => false).bind
    fun normalPair => ((selectFromElem ["styleUrl"] normalPair).head?).map textContent

/-- The body of the StyleMap loop of parseStyles: alias the StyleMap id to
the already-resolved style its "normal" pair references, when that
reference is a local one that resolves; otherwise leave the table alone. -/
def processStyleMap (styles : StyleTable) (styleMap : XmlNode) : StyleTable :=
  match getAttribute styleMap "id" with
  | none => styles
  | some id =>
    if id = "" then styles
    else
      match normalStyleUrl styleMap with
      | none => styles
      | some styleUrl =>
        if styleUrl ≠ "" ∧ jsStartsWith styleUrl "#" then
          match mapGet styles (jsDrop styleUrl 1) with
          | some referencedStyle => mapSet styles id referencedStyle
          | none => styles
        else styles

/-- parseStyles: process every Style element, then every StyleMap element. -/
def parseStyles (xmlDoc : XmlNode) : StyleTable :=
  ((selectFromDoc ["StyleMap"] xmlDoc)).foldl processStyleMap
    (((selectFromDoc ["Style"] xmlDoc)).foldl processStyle [])

/-! ## Geometry extractor (parsePlacemarks) -/

/-- The style lookup of a placemark: follow a local styleUrl into the
table; anything else leaves the style undefined. -/
def placemarkStyle (styles : StyleTable) (placemark : XmlNode) : Option KmlStyle :=
  match (selHead ["styleUrl"] placemark).map textContent with
  | some styleUrl =>
    if styleUrl ≠ "" ∧ jsStartsWith styleUrl "#" then mapGet styles (jsDrop styleUrl 1)
    else none
  | none => none

/-- The ExtendedData extraction: each Data child with a truthy name
attribute and a truthy value child contributes one key; an empty record is
undefined. -/
def extDataOf (placemark : XmlNode) : Option RecordST :=
  let extendedData :=
    (selectFromElem ["ExtendedData", "Data"] placemark).foldl
      (fun acc dataEl =>
        match getAttribute dataEl "name", truthyText (selHead ["value"] dataEl) with
        | some dataName, some dataValue =>
          if dataName = "" then acc else recSet acc dataName dataValue
        | _, _ => acc) []
  if extendedData = [] then none else some extendedData

/-- The Point branch of parsePlacemarks: skip the node when tokenization
yields no triple, else emit one Point element from the first triple. -/
def pointBranch (name description : Option String) (style : Option KmlStyle)
    (ext : Option RecordST) (point : XmlNode) : Option KmlElement :=
  match parseCoordinates ((selHead ["coordinates"] point).map textContent) with
  | [] => none
  | c0 :: _ =>
    some { type := "Point", name, description, coordinates := .point c0, style,
           extendedData := ext, metadata := none }

/-- The LineString branch of parsePlacemarks: skip on an empty coordinate
list, else emit a LineString element with its summed Haversine length. -/
noncomputable def lineBranch (name description : Option String) (style : Option KmlStyle)
    (ext : Option RecordST) (lineString : XmlNode) : Option KmlElement :=
  match parseCoordinates ((selHead ["coordinates"] lineString).map textContent) with
  | [] => none
  | c0 :: cs =>
    some { type := "LineString", name, description, coordinates := .line (c0 :: cs), style,
           extendedData := ext, metadata := some { length := some (lineLength (c0 :: cs)) } }

/-- The outer-boundary rings of the Polygon branch: at most one ring, taken
from the first outerBoundaryIs LinearRing coordinates when its text is
truthy and tokenizes to at least one triple. -/
def outerRings (polygon : XmlNode) : List (List Triple) :=
  match (selHead ["outerBoundaryIs", "LinearRing", "coordinates"] polygon).map textContent with
  | some outerBoundary =>
    if outerBoundary = "" then []
    else
      match parseCoordinates (some outerBoundary) with
      | [] => []
      | c0 :: cs => [c0 :: cs]
  | none => []

/-- The inner-boundary rings of the Polygon branch: every
innerBoundaryIs LinearRing coordinates whose tokenization is nonempty. -/
def innerRings (polygon : XmlNode) : List (List Triple) :=
  (selectFromElem ["innerBoundaryIs", "LinearRing", "coordinates"] polygon).filterMap
    fun innerBoundary =>
      match parseCoordinates (some (textContent innerBoundary)) with
      | [] => none
      | c0 :: cs => some (c0 :: cs)

/-- The Polygon branch of parsePlacemarks: collect outer then inner rings,
skip the node when no ring survived, else emit a Polygon element whose
area is computed from rings[0]. -/
noncomputable def polyBranch (name description : Option String) (style : Option KmlStyle)
    (ext : Option RecordST) (polygon : XmlNode) : Option KmlElement :=
  match outerRings polygon ++ innerRings polygon with
  | [] => none
  | r0 :: rest =>
    some { type := "Polygon", name, description, coordinates := .poly (r0 :: rest), style,
           extendedData := ext, metadata := some { area := some (calculatePolygonArea r0) } }

/-- The suffixed name of an element that came out of a MultiGeometry. -/
def multiName (name : Option String) : Option String :=
  match name with
  | some n => some (n ++ " (Multi)")
  | none => none

/-- The MultiGeometry branch of parsePlacemarks: only the first geometry
in Point, LineString, Polygon priority is extracted, carrying no derived
metadata. -/
def multiBranch (name description : Option String) (style : Option KmlStyle)
    (ext : Option RecordST) (multiGeometry : XmlNode) : Option KmlElement :=
  match selHead ["Point"] multiGeometry with
  | some point =>
    match parseCoordinates ((selHead ["coordinates"] point).map textContent) with
    | [] => none
    | c0 :: _ =>
      some { type := "Point", name := multiName name, description,
             coordinates := .point c0, style, extendedData := ext, metadata := none }
  | none =>
    match selHead ["LineString"] multiGeometry with
    | some lineString =>
      match parseCoordinates ((selHead ["coordinates"] lineString).map textContent) with
      | [] => none
      | c0 :: cs =>
        some { type := "LineString", name := multiName name, description,
               coordinates := .line (c0 :: cs), style, extendedData := ext, metadata := none }
    | none =>
      match selHead ["Polygon"] multiGeometry with
      | some polygon =>
        match (selHead ["outerBoundaryIs", "LinearRing", "coordinates"] polygon).map
            textContent with
        | some outerBoundary =>
          if outerBoundary = "" then none
          else
            match parseCoordinates (some outerBoundary) with
            | [] => none
            | c0 :: cs =>
              some { type := "Polygon", name := multiName name, description,
                     coordinates := .poly [c0 :: cs], style, extendedData := ext,
                     metadata := none }
        | none => none
      | none => none

/-- The body of the Placemark loop of parsePlacemarks: read name,
description, style and extended data, then dispatch on the first geometry
child found in Point, LineString, Polygon, MultiGeometry priority; each
branch returns from the loop body, so at most one element is emitted. -/
noncomputable def processPlacemark (styles : StyleTable) (placemark : XmlNode) :
    Option KmlElement :=
  let name := truthyText (selHead ["name"] placemark)
  let description := truthyText (selHead ["description"] placemark)
  let style := placemarkStyle styles placemark
  let ext := extDataOf placemark
  match selHead ["Point"] placemark with
  | some point => pointBranch name description style ext point
  | none =>
    match selHead ["LineString"] placemark with
    | some lineString => lineBranch name description style ext lineString
    | none =>
      match selHead ["Polygon"] placemark with
      | some polygon => polyBranch name description style ext polygon
      | none =>
        match selHead ["MultiGeometry"] placemark with
        | some multiGeometry => multiBranch name description style ext multiGeometry
        | none => none

/-- parsePlacemarks: process every Placemark node of the document; a
per-node failure is absorbed (the model is total, matching the per-node
try/catch). -/
noncomputable def parsePlacemarks (xmlDoc : XmlNode) (styles : StyleTable) :
    List KmlElement :=
  (selectFromDoc ["Placemark"] xmlDoc).filterMap (processPlacemark styles)

/-! ## Namespace repair (preprocessKml) -/

/-- The five well-known namespace declarations, in object-entry order. -/
def KML_NAMESPACES : List (String × String) :=
  [("xmlns", "http://www.opengis.net/kml/2.2"),
   ("xmlns:xsi", "http://www.w3.org/2001/XMLSchema-instance"),
   ("xmlns:gx", "http://www.google.com/kml/ext/2.2"),
   ("xmlns:atom", "http://www.w3.org/2005/Atom"),
   ("xmlns:kml", "http://www.opengis.net/kml/2.2")]

/-- The attribute text ` ns="url"` injected for one namespace entry. -/
def declStr (p : String × String) : String :=
  " " ++ p.1 ++ "=\"" ++ p.2 ++ "\""

/-- The first match of the regex `<kml[^>]*>` in a string: from the first
occurrence of `<kml` to the first following `>`. -/
def matchKmlTag (s : String) : Option String :=
  match findSub s.data "<kml".data with
  | none => none
  | some i =>
    let fromTag := s.data.drop i
    match fromTag.findIdx? (· = '>') with
    | none => none
    | some j => some (String.mk (fromTag.take (j + 1)))

/-- The namespace-injection fold of preprocessKml: for each of the five
entries whose NAME is not a substring of the original root tag, splice its
declaration in before the first `>` of the accumulated tag. -/
def updateTag (kmlTag : String) : String :=
  KML_NAMESPACES.foldl
    (fun updatedTag p =>
      if ¬ containsSub kmlTag p.1 then replaceFirst updatedTag ">" (declStr p ++ ">")
      else updatedTag)
    kmlTag

/-- preprocessKml: wrap the text in a synthetic root when `<kml` does not
occur; otherwise rewrite the first `<kml...>` tag with the injected
namespace declarations, leaving the rest of the text unchanged. -/
def preprocessKml (kmlString : String) : String :=
  if ¬ containsSub kmlString "<kml" then
    "<kml xmlns=\"http://www.opengis.net/kml/2.2\">" ++ kmlString ++ "</kml>"
  else
    match matchKmlTag kmlString with
    | none => kmlString
    | some kmlTag =>
      let updatedTag := updateTag kmlTag
      if updatedTag ≠ kmlTag then replaceFirst kmlString kmlTag updatedTag
      else kmlString

/-! ## Salvage parser (fallbackParse) -/

/-- The per-block body of fallbackParse: regex-extract name, description
and the first geometry in Point, LineString, Polygon priority, tokenize
its first coordinates run, and build an element with the fixed default
style; a block with no geometry, no coordinates run or zero triples
contributes nothing. -/
def fallbackBlock (block : List Char) : Option KmlElement :=
  let name := (firstTagBlock "name" block).map (fun g => String.mk (jsTrim g))
  let description := (firstTagBlock "description" block).map (fun g => String.mk (jsTrim g))
  let geom : Option (String × List Char) :=
    match firstTagBlock "Point" block with
    | some g => some ("Point", g)
    | none =>
      match firstTagBlock "LineString" block with
      | some g => some ("LineString", g)
      | none =>
        match firstTagBlock "Polygon" block with
        | some g => some ("Polygon", g)
        | none => none
  match geom with
  | none => none
  | some (ty, geometryContent) =>
    match firstTagBlock "coordinates" geometryContent with
    | none => none
    | some coordsRaw =>
      let coordsText := String.mk (jsTrim coordsRaw)
      match parseCoordinatesText coordsText ty with
      | [] => none
      | c0 :: cs =>
        some { type := ty, name, description,
               coordinates := if ty = "Polygon" then .poly [c0 :: cs] else .line (c0 :: cs),
               style := some { color := some "#3700ff", fillColor := some "#42eedc",
                               fillOpacity := some (1 / 5) },
               extendedData := none, metadata := none }

/-- fallbackParse: regex-scan the raw text for Placemark blocks and salvage
one element from each block that yields coordinates; it never fails and
carries no document name or description. -/
def fallbackParse (kmlString : String) : KmlData :=
  { elements := (allTagBlocks "Placemark" kmlString.data).filterMap fallbackBlock }

/-! ## Structured document parser (parseKml) -/

/-- The outcome of DOMParser.parseFromString: a parsererror document, or a
parsed tree.  The browser parser is external, so parseKml receives it as
an oracle. -/
inductive ParseOutcome where
  | error : ParseOutcome
  | ok (doc : XmlNode) : ParseOutcome

/-- The Document-like node the top-level metadata is read from:
querySelector("kml Document") falling back to querySelector("Document"). -/
def kmlDocOf (xmlDoc : XmlNode) : Option XmlNode :=
  match (selectFromDoc ["kml", "Document"] xmlDoc).head? with
  | some d => some d
  | none => (selectFromDoc ["Document"] xmlDoc).head?

/-- The top-level document name. -/
def docNameOf (xmlDoc : XmlNode) : Option String :=
  kmlDocOf xmlDoc >>= fun d => truthyText (selHead ["name"] d)

/-- The top-level document description. -/
def docDescOf (xmlDoc : XmlNode) : Option String :=
  kmlDocOf xmlDoc >>= fun d => truthyText (selHead ["description"] d)

/-- parseKml: reject empty input, preprocess, hand the text to the DOM
parser; on a parsererror divert to fallbackParse on the RAW text, else
assemble the document from styles and placemarks.  An empty element list
is returned as is (the source only logs a warning). -/
noncomputable def parseKml (kmlString : String) (domParse : String → ParseOutcome) :
    Except String KmlData :=
  if kmlString = "" then .error "Invalid KML content: Empty or not a string"
  else
    match domParse (preprocessKml kmlString) with
    | .error => .ok (fallbackParse kmlString)
    | .ok xmlDoc =>
      .ok { name := docNameOf xmlDoc, description := docDescOf xmlDoc,
            elements := parsePlacemarks xmlDoc (parseStyles xmlDoc) }

/-! ## Archive unpacker (lib/kmz-parser.ts) -/

/-- The caller-facing file object: only its name is inspected before the
ZIP library takes over. -/
structure JsFile where
  name : String

/-- One entry of the loaded ZIP archive, in stored order: its full name,
directory flag and extracted text content. -/
structure ZipEntry where
  name : String
  dir : Bool
  content : String
deriving DecidableEq

/-- The KML-entry lookup of parseKmz: the exact entry doc.kml first, else
the first non-directory entry whose lower-cased name ends in ".kml". -/
def findKmlFile (files : List ZipEntry) : Option ZipEntry :=
  match files.find? (fun e => e.name = "doc.kml" ∧ ¬ e.dir) with
  | some kmlFile => some kmlFile
  | none => (files.filter (fun e => jsEndsWith (jsToLower e.name) ".kml" ∧ ¬ e.dir)).head?

/-- parseKmz: reject names that do not end in ".kmz" (case-insensitively)
before touching the archive, reject an unloadable archive, locate the KML
entry, reject a blank entry, and parse its content as KML.  `zipLoad` is
the oracle for JSZip.loadAsync (none = not a valid ZIP archive); the
image-resource extraction of the source writes a map that the function
never returns, so it is omitted. -/
noncomputable def parseKmz (file : JsFile) (zipLoad : Option (List ZipEntry))
    (domParse : String → ParseOutcome) : Except String KmlData :=
  if ¬ jsEndsWith (jsToLower file.name) ".kmz" then .error "Not a KMZ file"
  else
    match zipLoad with
    | none => .error "Invalid KMZ file: Not a valid ZIP archive"
    | some files =>
      match findKmlFile files with
      | none => .error "No KML file found in the KMZ archive"
      | some kmlFile =>
        if String.mk (jsTrim kmlFile.content.data) = "" then
          .error "Extracted KML file is empty"
        else parseKml kmlFile.content domParse

/-! ## Claims -/

/-- C6: the color codec maps every 8-character packed alpha-blue-green-red
string aabbggrr to #rrggbb, discarding alpha and reordering channels; it
maps "ff0000ff" to "#ff0000" and "801400aa" to "#aa0014"; an absent input
or one whose length is not exactly 8 maps to the fixed default color. -/
theorem c6_color_codec :
    (∀ a1 a2 b1 b2 g1 g2 r1 r2 : Char,
      kmlColorToHex (some (String.mk [a1, a2, b1, b2, g1, g2, r1, r2])) =
        String.mk ['#', r1, r2, g1, g2, b1, b2]) ∧
    kmlColorToHex (some "ff0000ff") = "#ff0000" ∧
    kmlColorToHex (some "801400aa") = "#aa0014" ∧
    kmlColorToHex none = "#3700ff" ∧
    (∀ s : String, s.length ≠ 8 → kmlColorToHex (some s) = "#3700ff") := by
  refine ⟨fun a1 a2 b1 b2 g1 g2 r1 r2 => rfl, by decide, by decide, rfl, ?_⟩
  intro s h
  simp only [kmlColorToHex]
  rw [if_pos (Or.inr h)]

/-- C6 witness: the no-hypothesis parts evaluated, and the default branch
applied at the concrete 3-character input "abc". -/
theorem c6_color_codec_witness :
    "abc".length ≠ 8 ∧ kmlColorToHex (some "abc") = "#3700ff" :=
  ⟨by decide, c6_color_codec.2.2.2.2 "abc" (by decide)⟩

/-- C5: coordinate tokenization is total — the embedding returns a plain
list for every input, reflecting the catch-all handlers of the source —
and absent, empty, or whitespace-only input yields the empty sequence
rather than an error. -/
theorem c5_tokenizer_total :
    parseCoordinates none = [] ∧
    parseCoordinates (some "") = [] ∧
    (∀ s : String, s.data.all isWs = true → parseCoordinates (some s) = []) := by
  refine ⟨rfl, rfl, ?_⟩
  intro s h
  by_cases hs : s = ""
  · simp [parseCoordinates, hs]
  · have hnil : s.data.dropWhile isWs = [] :=
      List.dropWhile_eq_nil_iff.mpr (fun x hx => by
        have := List.all_eq_true.mp h x hx
        exact this)
    simp [parseCoordinates, hs, coordTokens, jsTrim, hnil, collapseWs, collapseWsAux,
      stripWsAfterComma, stripWsAfterCommaAux, splitWs, splitWsAux]

/-- C5 witness: the whitespace-only case applied at the concrete input of
one space and one tab. -/
theorem c5_tokenizer_total_witness :
    " \t".data.all isWs = true ∧ parseCoordinates (some " \t") = [] :=
  ⟨by decide, c5_tokenizer_total.2.2 " \t" (by decide)⟩

/-- C7: the Haversine distance is symmetric in its two points, and the
distance from a point to itself is exactly 0. -/
theorem c7_distance_symm_zero :
    (∀ lat1 lon1 lat2 lon2 : ℝ,
      calculateDistance lat1 lon1 lat2 lon2 = calculateDistance lat2 lon2 lat1 lon1) ∧
    (∀ lat lon : ℝ, calculateDistance lat lon lat lon = 0) := by
  constructor
  · intro a b c d
    have h1 : (c - a) * Real.pi / 180 / 2 = -((a - c) * Real.pi / 180 / 2) := by ring
    have h2 : (d - b) * Real.pi / 180 / 2 = -((b - d) * Real.pi / 180 / 2) := by ring
    have key :
        Real.sin ((c - a) * Real.pi / 180 / 2) * Real.sin ((c - a) * Real.pi / 180 / 2) +
          Real.cos (a * Real.pi / 180) * Real.cos (c * Real.pi / 180) *
            (Real.sin ((d - b) * Real.pi / 180 / 2) *
              Real.sin ((d - b) * Real.pi / 180 / 2)) =
        Real.sin ((a - c) * Real.pi / 180 / 2) * Real.sin ((a - c) * Real.pi / 180 / 2) +
          Real.cos (c * Real.pi / 180) * Real.cos (a * Real.pi / 180) *
            (Real.sin ((b - d) * Real.pi / 180 / 2) *
              Real.sin ((b - d) * Real.pi / 180 / 2)) := by
      rw [h1, h2, Real.sin_neg, Real.sin_neg]
      ring
    unfold calculateDistance
    rw [key]
  · intro lat lon
    unfold calculateDistance
    have h1 : (lat - lat) * Real.pi / 180 / 2 = 0 := by ring
    have h2 : (lon - lon) * Real.pi / 180 / 2 = 0 := by ring
    rw [h1, h2, Real.sin_zero]
    have h3 :
        (0 : ℝ) * 0 +
          Real.cos (lat * Real.pi / 180) * Real.cos (lat * Real.pi / 180) * (0 * 0) = 0 := by
      ring
    rw [h3, Real.sqrt_zero, sub_zero, Real.sqrt_one]
    have h4 : atan2 0 1 = 0 := by
      unfold atan2
      have h5 : (⟨1, 0⟩ : ℂ) = 1 := by
        apply Complex.ext <;> simp
      rw [h5, Complex.arg_one]
    rw [h4]
    ring

attribute [local semireducible] Rat.add Rat.mul Rat.sub Rat.inv in
/-- C4 counterexample: in the token "1,2,x" the altitude field fails
numeric parse, yet the token yields (1, 2, NaN) — not the degraded triple
(0, 0, 0) the claim requires for any failing field. -/
theorem c4_counterexample :
    parseCoordinates (some "1,2,x") = [(JsNum.num 1, JsNum.num 2, JsNum.nan)] ∧
    ((JsNum.num 1, JsNum.num 2, JsNum.nan) : Triple) ≠ (JsNum.num 0, JsNum.num 0, JsNum.num 0) := by
  constructor
  · decide
  · decide

/-- C4 (amended): a tuple token degrades to (0,0,0) exactly when its
longitude or latitude field fails numeric parse (is NaN); when both
parse, the token is kept as (lng, lat, alt) unchanged — so a failing
altitude is kept as NaN with longitude and latitude intact — and no
token is ever dropped: every token of a nonempty input contributes
exactly one triple, so a degraded tuple never causes the enclosing
element to be skipped. -/
theorem c4_degrade_amended :
    (∀ tok : String,
      (getPart (splitComma tok) 0).isNaN = true ∨ (getPart (splitComma tok) 1).isNaN = true →
        parseCoordToken tok = (JsNum.num 0, JsNum.num 0, JsNum.num 0)) ∧
    (∀ tok : String,
      (getPart (splitComma tok) 0).isNaN = false →
      (getPart (splitComma tok) 1).isNaN = false →
        parseCoordToken tok =
          (getPart (splitComma tok) 0, getPart (splitComma tok) 1,
            if (splitComma tok).length > 2 then getPart (splitComma tok) 2
            else JsNum.num 0)) ∧
    (∀ s : String, s ≠ "" → (parseCoordinates (some s)).length = (coordTokens s).length) := by
  refine ⟨?_, ?_, ?_⟩
  · intro tok h
    simp only [parseCoordToken]
    rw [if_pos]
    exact h
  · intro tok h1 h2
    simp only [parseCoordToken]
    rw [if_neg]
    simp [h1, h2]
  · intro s hs
    simp [parseCoordinates, hs]

/-- C4 witness: the degrade case at the token "a,1" whose longitude fails
parse; the kept case at "1,2,x" (altitude NaN, longitude and latitude
intact) and at "Infinity,2" (an infinite longitude is not NaN, so the
token is kept); and token-count preservation at "1,2,x 5,6". -/
theorem c4_degrade_amended_witness :
    ((getPart (splitComma "a,1") 0).isNaN = true ∧
      parseCoordToken "a,1" = (JsNum.num 0, JsNum.num 0, JsNum.num 0)) ∧
    ((getPart (splitComma "1,2,x") 0).isNaN = false ∧
      (getPart (splitComma "1,2,x") 1).isNaN = false ∧
      parseCoordToken "1,2,x" =
        (getPart (splitComma "1,2,x") 0, getPart (splitComma "1,2,x") 1,
          if (splitComma "1,2,x").length > 2 then getPart (splitComma "1,2,x") 2
          else JsNum.num 0)) ∧
    ((getPart (splitComma "Infinity,2") 0).isNaN = false ∧
      parseCoordToken "Infinity,2" =
        (getPart (splitComma "Infinity,2") 0, getPart (splitComma "Infinity,2") 1,
          if (splitComma "Infinity,2").length > 2 then getPart (splitComma "Infinity,2") 2
          else JsNum.num 0)) ∧
    (("1,2,x 5,6" : String) ≠ "" ∧
      (parseCoordinates (some "1,2,x 5,6")).length = (coordTokens "1,2,x 5,6").length) :=
  ⟨⟨by decide, c4_degrade_amended.1 "a,1" (Or.inl (by decide))⟩,
    ⟨by decide, by decide, c4_degrade_amended.2.1 "1,2,x" (by decide) (by decide)⟩,
    ⟨by decide, c4_degrade_amended.2.1 "Infinity,2" (by decide) (by decide)⟩,
    ⟨by decide, c4_degrade_amended.2.2 "1,2,x 5,6" (by decide)⟩⟩

/-- The first occurrence of the single character `>` in a string that
ends with its only `>` is at the end. -/
theorem findSub_gt (b : List Char) (hb : '>' ∉ b) :
    findSub (b ++ ['>']) ['>'] = some b.length := by
  induction b with
  | nil => rfl
  | cons c cs ih =>
    have hc : c ≠ '>' := fun hcc => hb (hcc ▸ List.mem_cons_self c cs)
    have hcs : '>' ∉ cs := fun hmem => hb (List.mem_cons_of_mem c hmem)
    have hpre : (['>'] : List Char).isPrefixOf (c :: (cs ++ ['>'])) = false := by
      simp [List.isPrefixOf, Ne.symm hc]
    simp [findSub, hpre, ih hcs]

/-- Replacing the first `>` of a string of the shape `b ++ ">"`, with no
`>` inside `b`, substitutes at the very end (list level). -/
theorem replaceFirstL_gt (b r : List Char) (hb : '>' ∉ b) :
    replaceFirstL (b ++ ['>']) ['>'] r = b ++ r := by
  unfold replaceFirstL
  rw [findSub_gt b hb]
  show List.take b.length (b ++ ['>']) ++ r ++ List.drop (b.length + ['>'].length) (b ++ ['>']) =
    b ++ r
  have hlen : b.length + ['>'].length = (b ++ ['>']).length := by simp
  rw [List.take_left, hlen, List.drop_length, List.append_nil]

/-- Replacing the first `>` of a string of the shape `b ++ ">"`, with no
`>` inside `b`, substitutes at the very end. -/
theorem replaceFirst_gt (b r : String) (hb : '>' ∉ b.data) :
    replaceFirst (b ++ ">") ">" r = b ++ r := by
  obtain ⟨bd⟩ := b
  obtain ⟨rd⟩ := r
  show String.mk (replaceFirstL (bd ++ ['>']) ['>'] rd) = String.mk (bd ++ rd)
  rw [replaceFirstL_gt bd rd hb]

/-- String.join distributes over cons. -/
theorem join_cons (a : String) (l : List String) :
    String.join (a :: l) = a ++ String.join l := by
  obtain ⟨ad⟩ := a
  simp [String.join_eq]
  rfl

/-- The declarations of the five namespace entries whose name is missing
(as a substring) from the root tag, in order.  This is the specification
of what `updateTag` injects. -/
def missingDecls (kmlTag : String) : String :=
  String.join ((KML_NAMESPACES.filter (fun p => ! containsSub kmlTag p.1)).map declStr)

/-- The namespace-injection fold, characterized in closed form: starting
from `body ++ ">"` with no `>` inside `body`, the entries whose name is
not a substring of `tag` are appended in order before the final `>`. -/
theorem updateTag_foldl (tag : String) (l : List (String × String)) :
    ∀ body : String, '>' ∉ body.data → (∀ p ∈ l, '>' ∉ (declStr p).data) →
      List.foldl
        (fun updatedTag p =>
          if ¬ containsSub tag p.1 then replaceFirst updatedTag ">" (declStr p ++ ">")
          else updatedTag)
        (body ++ ">") l =
      body ++ String.join ((l.filter (fun p => ! containsSub tag p.1)).map declStr) ++ ">" := by
  induction l with
  | nil =>
    intro body _ _
    simp [String.join_eq, String.append_empty]
  | cons p ps ih =>
    intro body hb hmem
    have hp : '>' ∉ (declStr p).data := hmem p (List.mem_cons_self p ps)
    have hps : ∀ q ∈ ps, '>' ∉ (declStr q).data :=
      fun q hq => hmem q (List.mem_cons_of_mem p hq)
    cases hcb : containsSub tag p.1 with
    | false =>
      have hfalse : ¬ containsSub tag p.1 = true := by simp [hcb]
      simp only [List.foldl_cons]
      rw [if_pos hfalse, replaceFirst_gt body (declStr p ++ ">") hb,
        ← String.append_assoc body (declStr p) ">"]
      have hb' : '>' ∉ (body ++ declStr p).data := by
        rw [String.data_append]
        intro hmem'
        rcases List.mem_append.mp hmem' with h | h
        · exact hb h
        · exact hp h
      rw [ih (body ++ declStr p) hb' hps]
      simp [List.filter_cons, hcb, join_cons, String.append_assoc]
    | true =>
      have htrue : ¬ ¬ containsSub tag p.1 = true := by simp [hcb]
      simp only [List.foldl_cons]
      rw [if_neg htrue]
      rw [ih body hb hps]
      simp [List.filter_cons, hcb]

/-- The concrete input of the C3 counterexample: a root kml tag that
declares only the xsi namespace. -/
def c3Input : String :=
  "<kml xmlns:xsi=\"http://www.w3.org/2001/XMLSchema-instance\"></kml>"

set_option maxRecDepth 4000 in
/-- C3 counterexample: the input contains an opening root kml tag in which
the default xmlns declaration is missing, yet namespace repair does not
inject it — its name "xmlns" already occurs as a substring of the
prefixed xmlns:xsi declaration, so the substring guard skips it. -/
theorem c3_counterexample :
    containsSub c3Input "<kml" = true ∧
    containsSub c3Input "xmlns=\"http://www.opengis.net/kml/2.2\"" = false ∧
    containsSub (preprocessKml c3Input) "xmlns=\"http://www.opengis.net/kml/2.2\"" = false := by
  refine ⟨by decide, by decide, by decide⟩

/-- C3 (amended): namespace repair rewrites the first `<kml...>` tag by
appending, before its closing `>`, exactly those of the five declarations
whose NAME does not occur as a substring of the original tag text (so the
default xmlns is skipped whenever any prefixed declaration is present),
in entry order, and splices the rewritten tag in place of the original
one, leaving the rest of the text unchanged. -/
theorem c3_ns_repair_amended :
    (∀ body : String, '>' ∉ body.data →
      updateTag (body ++ ">") = body ++ missingDecls (body ++ ">") ++ ">") ∧
    (∀ s kmlTag : String, containsSub s "<kml" = true → matchKmlTag s = some kmlTag →
      updateTag kmlTag ≠ kmlTag → preprocessKml s = replaceFirst s kmlTag (updateTag kmlTag)) := by
  constructor
  · intro body hb
    unfold updateTag missingDecls
    exact updateTag_foldl (body ++ ">") KML_NAMESPACES body hb (by decide)
  · intro s kmlTag h1 h2 h3
    unfold preprocessKml
    rw [if_neg (by simp [h1]), h2]
    simp only []
    rw [if_pos h3]

/-- The root tag of the C3 counterexample input. -/
def c3Tag : String :=
  "<kml xmlns:xsi=\"http://www.w3.org/2001/XMLSchema-instance\">"

set_option maxRecDepth 4000 in
/-- C3 witness: the closed form applied to the bare tag body, and the
splice case applied to the concrete counterexample input. -/
theorem c3_ns_repair_amended_witness :
    ('>' ∉ "<kml".data ∧
      updateTag ("<kml" ++ ">") = "<kml" ++ missingDecls ("<kml" ++ ">") ++ ">") ∧
    (containsSub c3Input "<kml" = true ∧ matchKmlTag c3Input = some c3Tag ∧
      updateTag c3Tag ≠ c3Tag ∧
      preprocessKml c3Input = replaceFirst c3Input c3Tag (updateTag c3Tag)) :=
  ⟨⟨by decide, c3_ns_repair_amended.1 "<kml" (by decide)⟩,
    ⟨by decide, by decide, by decide,
      c3_ns_repair_amended.2 c3Input c3Tag (by decide) (by decide) (by decide)⟩⟩

/-- C9: a StyleMap whose normal-pair styleUrl does not start with `#`, or
references a style id with no already-resolved entry, leaves the style
table unchanged (no entry is created, no error is raised); and a
placemark whose local styleUrl lookup misses simply gets an absent
style. -/
theorem c9_stylemap_unresolved :
    (∀ (styles : StyleTable) (styleMap : XmlNode) (url : String),
      normalStyleUrl styleMap = some url →
      jsStartsWith url "#" = false ∨ mapGet styles (jsDrop url 1) = none →
      processStyleMap styles styleMap = styles) ∧
    (∀ (styles : StyleTable) (placemark : XmlNode) (url : String),
      (selHead ["styleUrl"] placemark).map textContent = some url →
      jsStartsWith url "#" = true → mapGet styles (jsDrop url 1) = none →
      placemarkStyle styles placemark = none) := by
  constructor
  · intro styles sm url h1 h2
    unfold processStyleMap
    cases hid : getAttribute sm "id" with
    | none => rfl
    | some id =>
      simp only []
      by_cases hid0 : id = ""
      · rw [if_pos hid0]
      · rw [if_neg hid0, h1]
        simp only []
        by_cases hcond : url ≠ "" ∧ jsStartsWith url "#" = true
        · rw [if_pos hcond]
          rcases h2 with h2 | h2
          · rw [hcond.2] at h2
            exact absurd h2 (by decide)
          · rw [h2]
        · rw [if_neg hcond]
  · intro styles pm url h1 h2 h3
    have hne : url ≠ "" := by
      intro h0
      rw [h0] at h2
      exact absurd h2 (by decide)
    unfold placemarkStyle
    rw [h1]
    simp only []
    rw [if_pos ⟨hne, h2⟩, h3]

/-- The StyleMap of the C9 witness: its normal pair references the
undefined id "missing". -/
def c9Map : XmlNode :=
  .elem "StyleMap" [("id", "m")]
    [.elem "Pair" []
      [.elem "key" [] [.text "normal"], .elem "styleUrl" [] [.text "#missing"]]]

/-- The placemark of the C9 witness: it references the undefined id
"missing". -/
def c9Pm : XmlNode :=
  .elem "Placemark" [] [.elem "styleUrl" [] [.text "#missing"]]

/-- C9 witness: both parts applied to concrete nodes over the empty style
table. -/
theorem c9_stylemap_unresolved_witness :
    (normalStyleUrl c9Map = some "#missing" ∧ mapGet [] (jsDrop "#missing" 1) = none ∧
      processStyleMap [] c9Map = []) ∧
    ((selHead ["styleUrl"] c9Pm).map textContent = some "#missing" ∧
      placemarkStyle [] c9Pm = none) :=
  ⟨⟨by decide, by decide,
      c9_stylemap_unresolved.1 [] c9Map "#missing" (by decide) (Or.inr (by decide))⟩,
    ⟨by decide,
      c9_stylemap_unresolved.2 [] c9Pm "#missing" (by decide) (by decide) (by decide)⟩⟩

/-- The Polygon of the C2 counterexample: an outer boundary whose
coordinates element is empty, and an inner boundary with three
coordinate tuples.-/
def c2Polygon : XmlNode :=
  .elem "Polygon" []
    [.elem "outerBoundaryIs" [] [.elem "LinearRing" [] [.elem "coordinates" [] []]],
     .elem "innerBoundaryIs" []
       [.elem "LinearRing" [] [.elem "coordinates" [] [.text "0,0 1,0 1,1"]]]]

/-- The Placemark of the C2 counterexample. -/
def c2Placemark : XmlNode := .elem "Placemark" [] [c2Polygon]

attribute [local semireducible] Rat.add Rat.mul Rat.sub Rat.inv in
/-- C2 counterexample: the outer boundary of this Placemark's Polygon
yields zero coordinates, yet the node is NOT skipped — an element is
emitted whose ring 0 is the inner boundary's ring. -/
theorem c2_counterexample :
    outerRings c2Polygon = [] ∧
    (processPlacemark [] c2Placemark).map (fun e => e.coordinates) =
      some (Coords.poly [[(JsNum.num 0, JsNum.num 0, JsNum.num 0),
                          (JsNum.num 1, JsNum.num 0, JsNum.num 0),
                          (JsNum.num 1, JsNum.num 1, JsNum.num 0)]]) := by
  exact ⟨by decide, by decide⟩

/-- C2 (amended): when a Placemark dispatches to the Polygon branch and
its outer boundary yields zero coordinates, the node is skipped only if
every inner boundary also yields zero coordinates; otherwise an element
is emitted whose rings are exactly the nonempty inner rings, the first
inner ring becoming ring 0. -/
theorem c2_polygon_outer_amended :
    ∀ (styles : StyleTable) (pm polygon : XmlNode),
      selHead ["Point"] pm = none →
      selHead ["LineString"] pm = none →
      selHead ["Polygon"] pm = some polygon →
      outerRings polygon = [] →
      (innerRings polygon = [] → processPlacemark styles pm = none) ∧
      (∀ r rs, innerRings polygon = r :: rs →
        ∃ e, processPlacemark styles pm = some e ∧ e.coordinates = Coords.poly (r :: rs)) := by
  intro styles pm polygon hpt hls hpg houter
  constructor
  · intro hin
    simp only [processPlacemark, hpt, hls, hpg]
    unfold polyBranch
    rw [houter, hin]
    rfl
  · intro r rs hin
    simp only [processPlacemark, hpt, hls, hpg]
    unfold polyBranch
    rw [houter, hin]
    simp only [List.nil_append]
    exact ⟨_, rfl, rfl⟩

/-- The Placemark of the C2 witness skip case: its Polygon has an empty
outer boundary and no inner boundary. -/
def c2EmptyPolygon : XmlNode :=
  .elem "Polygon" []
    [.elem "outerBoundaryIs" [] [.elem "LinearRing" [] [.elem "coordinates" [] []]]]

/-- The enclosing Placemark of the C2 witness skip case. -/
def c2EmptyPlacemark : XmlNode := .elem "Placemark" [] [c2EmptyPolygon]

attribute [local semireducible] Rat.add Rat.mul Rat.sub Rat.inv in
/-- C2 witness: the skip case at a Polygon with empty outer and no inner
boundary, and the emission case at the counterexample Placemark. -/
theorem c2_polygon_outer_amended_witness :
    processPlacemark [] c2EmptyPlacemark = none ∧
    (∃ e, processPlacemark [] c2Placemark = some e ∧
      e.coordinates = Coords.poly [[(JsNum.num 0, JsNum.num 0, JsNum.num 0),
                                    (JsNum.num 1, JsNum.num 0, JsNum.num 0),
                                    (JsNum.num 1, JsNum.num 1, JsNum.num 0)]]) :=
  ⟨(c2_polygon_outer_amended [] c2EmptyPlacemark c2EmptyPolygon rfl rfl rfl rfl).1 rfl,
    (c2_polygon_outer_amended [] c2Placemark c2Polygon rfl rfl rfl rfl).2
      [(JsNum.num 0, JsNum.num 0, JsNum.num 0), (JsNum.num 1, JsNum.num 0, JsNum.num 0),
        (JsNum.num 1, JsNum.num 1, JsNum.num 0)] [] (by decide)⟩

/-- A Point element emitted by the Point branch carries no metadata. -/
theorem pointBranch_metadata (n d : Option String) (s : Option KmlStyle)
    (x : Option RecordST) (pt : XmlNode) (e : KmlElement)
    (h : pointBranch n d s x pt = some e) : e.metadata = none := by
  unfold pointBranch at h
  split at h
  · exact absurd h (by simp)
  · rw [← Option.some.inj h]

/-- A LineString element emitted by the LineString branch carries a length
and no area. -/
theorem lineBranch_metadata (n d : Option String) (s : Option KmlStyle)
    (x : Option RecordST) (ls : XmlNode) (e : KmlElement)
    (h : lineBranch n d s x ls = some e) :
    ∃ l, e.metadata = some { length := some l, area := none } := by
  unfold lineBranch at h
  split at h
  · exact absurd h (by simp)
  · exact ⟨_, by rw [← Option.some.inj h]⟩

/-- A Polygon element emitted by the Polygon branch has nonempty rings and
an area computed from ring 0 only. -/
theorem polyBranch_metadata (n d : Option String) (s : Option KmlStyle)
    (x : Option RecordST) (pg : XmlNode) (e : KmlElement)
    (h : polyBranch n d s x pg = some e) :
    ∃ r0 rs, e.coordinates = Coords.poly (r0 :: rs) ∧
      e.metadata = some { length := none, area := some (calculatePolygonArea r0) } := by
  unfold polyBranch at h
  split at h
  · exact absurd h (by simp)
  · exact ⟨_, _, by rw [← Option.some.inj h], by rw [← Option.some.inj h]⟩

/-- An element emitted by the MultiGeometry branch carries no metadata. -/
theorem multiBranch_metadata (n d : Option String) (s : Option KmlStyle)
    (x : Option RecordST) (mg : XmlNode) (e : KmlElement)
    (h : multiBranch n d s x mg = some e) : e.metadata = none := by
  unfold multiBranch at h
  repeat' split at h
  all_goals first
    | rw [← Option.some.inj h]
    | exact absurd h (by simp)

/-- C8: the polygon-area metric returns exactly 0 for every ring with
fewer than 3 points, and whenever an emitted element carries an area, the
element is a Polygon and its area is computed from ring 0 only — the
inner rings never enter the computation. -/
theorem c8_area_ring0 :
    (∀ ring : List Triple, ring.length < 3 → calculatePolygonArea ring = 0) ∧
    (∀ (styles : StyleTable) (pm : XmlNode) (e : KmlElement) (m : Metadata) (a : ℝ),
      processPlacemark styles pm = some e → e.metadata = some m → m.area = some a →
      ∃ r0 rs, e.coordinates = Coords.poly (r0 :: rs) ∧ a = calculatePolygonArea r0) := by
  constructor
  · intro ring h
    unfold calculatePolygonArea
    rw [if_pos h]
  · intro styles pm e m a h hm ha
    unfold processPlacemark at h
    split at h
    · rw [pointBranch_metadata _ _ _ _ _ _ h] at hm
      exact absurd hm (by simp)
    · split at h
      · obtain ⟨l, hl⟩ := lineBranch_metadata _ _ _ _ _ _ h
        rw [hl] at hm
        rw [← Option.some.inj hm] at ha
        exact absurd ha (by simp)
      · split at h
        · obtain ⟨r0, rs, hc, hmeta⟩ := polyBranch_metadata _ _ _ _ _ _ h
          rw [hmeta] at hm
          rw [← Option.some.inj hm] at ha
          exact ⟨r0, rs, hc, (Option.some.inj ha).symm⟩
        · split at h
          · rw [multiBranch_metadata _ _ _ _ _ _ h] at hm
            exact absurd hm (by simp)
          · exact absurd h (by simp)

/-- The ring of the C8 witness polygon. -/
def c8Ring : List Triple :=
  [(JsNum.num 0, JsNum.num 0, JsNum.num 0), (JsNum.num 1, JsNum.num 0, JsNum.num 0),
   (JsNum.num 1, JsNum.num 1, JsNum.num 0), (JsNum.num 0, JsNum.num 0, JsNum.num 0)]

/-- The Placemark of the C8 witness: one Polygon with a 4-point outer
boundary. -/
def c8Placemark : XmlNode :=
  .elem "Placemark" []
    [.elem "Polygon" []
      [.elem "outerBoundaryIs" []
        [.elem "LinearRing" [] [.elem "coordinates" [] [.text "0,0 1,0 1,1 0,0"]]]]]

/-- The element the C8 witness placemark parses to. -/
noncomputable def c8Elem : KmlElement :=
  { type := "Polygon", name := none, description := none, coordinates := .poly [c8Ring],
    style := none, extendedData := none,
    metadata := some { length := none, area := some (calculatePolygonArea c8Ring) } }

attribute [local semireducible] Rat.add Rat.mul Rat.sub Rat.inv in
/-- C8 witness: the degenerate-ring case at the empty ring, and the area
case applied to the concrete one-ring polygon placemark. -/
theorem c8_area_ring0_witness :
    (List.length ([] : List Triple) < 3 ∧ calculatePolygonArea [] = 0) ∧
    (∃ r0 rs, c8Elem.coordinates = Coords.poly (r0 :: rs) ∧
      calculatePolygonArea c8Ring = calculatePolygonArea r0) :=
  ⟨⟨by decide, c8_area_ring0.1 [] (by decide)⟩,
    c8_area_ring0.2 [] c8Placemark c8Elem
      { length := none, area := some (calculatePolygonArea c8Ring) }
      (calculatePolygonArea c8Ring) rfl rfl rfl⟩

/-- The raw input of the C1 counterexample: well-formed XML whose only
Placemark has a whitespace-only coordinates entity. -/
def c1Input : String :=
  "<kml><Placemark><Point><coordinates>&#32;</coordinates></Point></Placemark></kml>"

/-- The DOM tree a browser produces for the preprocessed C1 input: the
character entity decodes to a space in the text node; the injected root
attributes are irrelevant to every query performed. -/
def c1Doc : XmlNode :=
  .elem "kml" []
    [.elem "Placemark" [] [.elem "Point" [] [.elem "coordinates" [] [.text " "]]]]

/-- The DOM oracle of the C1 counterexample: the parse succeeds with the
tree above. -/
def c1Oracle : String → ParseOutcome := fun _ => .ok c1Doc

/-- C1 counterexample: the XML parse succeeds, geometry extraction yields
zero elements, and parseKml returns the empty-but-successful Document —
it does not route to the Salvage Parser, which on this input would have
produced one element. -/
theorem c1_counterexample :
    parsePlacemarks c1Doc (parseStyles c1Doc) = [] ∧
    parseKml c1Input c1Oracle = .ok { name := none, description := none, elements := [] } ∧
    (fallbackParse c1Input).elements.length = 1 := by
  refine ⟨rfl, rfl, rfl⟩

/-- C1 (amended): when the XML parse reports a structural error, parseKml
routes to the Salvage Parser on the raw text; but when the parse succeeds
and geometry extraction yields zero elements, parseKml returns the
empty-but-successful Document without routing to the Salvage Parser. -/
theorem c1_fallback_amended :
    (∀ (s : String) (domParse : String → ParseOutcome),
      s ≠ "" → domParse (preprocessKml s) = .error →
      parseKml s domParse = .ok (fallbackParse s)) ∧
    (∀ (s : String) (domParse : String → ParseOutcome) (doc : XmlNode),
      s ≠ "" → domParse (preprocessKml s) = .ok doc →
      parsePlacemarks doc (parseStyles doc) = [] →
      parseKml s domParse =
        .ok { name := docNameOf doc, description := docDescOf doc, elements := [] }) := by
  constructor
  · intro s dom hs hdom
    unfold parseKml
    rw [if_neg hs, hdom]
  · intro s dom doc hs hdom hel
    unfold parseKml
    rw [if_neg hs, hdom]
    have hrec : ({ name := docNameOf doc,
                   description := docDescOf doc,
                   elements := parsePlacemarks doc (parseStyles doc) } : KmlData) =
        { name := docNameOf doc, description := docDescOf doc, elements := [] } := by
      rw [hel]
    exact congrArg Except.ok hrec

/-- C1 witness: the error route applied at the input "x" with an
always-failing DOM oracle, and the empty route applied at the concrete
counterexample input. -/
theorem c1_fallback_amended_witness :
    parseKml "x" (fun _ => ParseOutcome.error) = .ok (fallbackParse "x") ∧
    parseKml c1Input c1Oracle =
      .ok { name := docNameOf c1Doc, description := docDescOf c1Doc, elements := [] } :=
  ⟨c1_fallback_amended.1 "x" (fun _ => ParseOutcome.error) (by decide) rfl,
    c1_fallback_amended.2 c1Input c1Oracle c1Doc (by decide) rfl rfl⟩

/-- C10: a file whose name does not end case-insensitively in ".kmz" is
rejected with "Not a KMZ file" whatever the archive contains — even a
valid ZIP with a KML entry; otherwise the KML entry is the exact doc.kml
entry when present, else the first non-directory entry whose name ends
case-insensitively in ".kml"; and when no such entry exists, the parse
fails with the container error. -/
theorem c10_kmz_entry :
    (∀ (file : JsFile) (zipLoad : Option (List ZipEntry))
        (domParse : String → ParseOutcome),
      jsEndsWith (jsToLower file.name) ".kmz" = false →
      parseKmz file zipLoad domParse = .error "Not a KMZ file") ∧
    (∀ (files : List ZipEntry) (e : ZipEntry),
      files.find? (fun f => f.name = "doc.kml" ∧ ¬ f.dir) = some e →
      findKmlFile files = some e) ∧
    (∀ files : List ZipEntry,
      files.find? (fun f => f.name = "doc.kml" ∧ ¬ f.dir) = none →
      findKmlFile files =
        (files.filter (fun f => jsEndsWith (jsToLower f.name) ".kml" ∧ ¬ f.dir)).head?) ∧
    (∀ (file : JsFile) (files : List ZipEntry) (domParse : String → ParseOutcome),
      jsEndsWith (jsToLower file.name) ".kmz" = true →
      files.find? (fun f => f.name = "doc.kml" ∧ ¬ f.dir) = none →
      files.filter (fun f => jsEndsWith (jsToLower f.name) ".kml" ∧ ¬ f.dir) = [] →
      parseKmz file (some files) domParse =
        .error "No KML file found in the KMZ archive") := by
  refine ⟨?_, ?_, ?_, ?_⟩
  · intro file zipLoad dom h
    unfold parseKmz
    rw [if_pos (by simp [h])]
  · intro files e h
    unfold findKmlFile
    rw [h]
  · intro files h
    unfold findKmlFile
    rw [h]
  · intro file files dom h1 h2 h3
    unfold parseKmz
    rw [if_neg (by simp [h1])]
    simp only []
    unfold findKmlFile
    rw [h2, h3]
    rfl

/-- The archive of the C10 witness: a valid ZIP holding a KML entry. -/
def c10Files : List ZipEntry := [⟨"doc.kml", false, "<kml/>"⟩]

/-- An archive with no KML-like entry, for the container-error case. -/
def c10NoKml : List ZipEntry := [⟨"folder/", true, ""⟩, ⟨"a.txt", false, "hello"⟩]

/-- An archive without doc.kml but with an upper-case .KML entry, for the
fallback-lookup case. -/
def c10Fallback : List ZipEntry := [⟨"images/a.png", false, ""⟩, ⟨"B.KML", false, "x"⟩]

/-- C10 witness: the name check rejecting a .zip name over a valid
KML-bearing archive, the doc.kml lookup, the case-insensitive fallback
lookup, and the container error on an archive with no KML entry. -/
theorem c10_kmz_entry_witness :
    parseKmz ⟨"test.zip"⟩ (some c10Files) (fun _ => ParseOutcome.error) =
      .error "Not a KMZ file" ∧
    findKmlFile c10Files = some ⟨"doc.kml", false, "<kml/>"⟩ ∧
    findKmlFile c10Fallback = some ⟨"B.KML", false, "x"⟩ ∧
    parseKmz ⟨"a.KMZ"⟩ (some c10NoKml) (fun _ => ParseOutcome.error) =
      .error "No KML file found in the KMZ archive" :=
  ⟨c10_kmz_entry.1 ⟨"test.zip"⟩ (some c10Files) (fun _ => ParseOutcome.error) (by decide),
    c10_kmz_entry.2.1 c10Files ⟨"doc.kml", false, "<kml/>"⟩ (by decide),
    by
      rw [c10_kmz_entry.2.2.1 c10Fallback (by decide)]
      decide,
    c10_kmz_entry.2.2.2 ⟨"a.KMZ"⟩ c10NoKml (fun _ => ParseOutcome.error) (by decide)
      (by decide) (by decide)⟩
